import Mathlib

/-!
# Verification of the sentiment-inference HTTP service (`src/app.py`)

Shallow embedding of the single-file Flask application `app.py`.  The
application exposes `POST /predict`: it validates a JSON request carrying a
`text` field and forwards the text to a sentiment-analysis pipeline loaded
once at startup.

Modelling choices, all taken from the source and the semantics of its host
framework (Flask/Werkzeug) and of Python:

* JSON values are the inductive `JsonVal`; JSON objects are association
  lists with distinct keys (Python `dict.get` is `dictGet`).
* Python truthiness of a JSON-decoded value is `JsonVal.truthy`
  (`None`, `False`, `0`, `""`, `[]`, `{}` are falsy).
* The transformers pipeline object `sentiment_analyzer` is opaque: an
  `Analyzer` is a function from the input string to either a raised
  exception (named by a string) or a list of prediction dictionaries,
  exactly the shape `pipeline(...)` returns.  A successfully constructed
  pipeline object is truthy in Python, and `None` is falsy, so the guard
  `if not sentiment_analyzer` is a match on `Option Analyzer`.
* Python floats are modelled as rationals; `round(x, 4)` is `pyRound4`.
  (CPython rounds half to even; Mathlib's `round` rounds half up.  The two
  agree except at exact ties, which the source's contract leaves
  implementation-defined, and no property below depends on a tie.)
* `request.is_json` only inspects the declared content type; when it holds,
  `request.get_json()` either yields the parsed body or raises Werkzeug's
  `BadRequest` (HTTP 400), which leaves the handler and is turned into the
  framework's default error page.  Likewise `data.get('text')` raises
  `AttributeError` when the parsed body is not a JSON object; an uncaught
  exception makes Flask answer its default 500 page.  Outcomes therefore
  distinguish responses formed by the handler (`Outcome.handler`) from
  framework-generated error pages (`Outcome.framework`); in both cases the
  process survives.
-/

namespace App

/-- A JSON value, as decoded by `request.get_json()`. -/
inductive JsonVal where
  | null
  | bool (b : Bool)
  | num (q : ℚ)
  | str (s : String)
  | arr (elems : List JsonVal)
  | obj (fields : List (String × JsonVal))

/-- Python truthiness of a JSON-decoded value (`bool(x)`): `None`, `False`,
`0`, `""`, `[]` and `{}` are falsy, everything else is truthy. -/
def JsonVal.truthy : JsonVal → Bool
  | .null => false
  | .bool b => b
  | .num q => q ≠ 0
  | .str s => !s.isEmpty
  | .arr elems => !elems.isEmpty
  | .obj fields => !fields.isEmpty

/-- Python's `isinstance(x, str)` for a JSON-decoded value. -/
def JsonVal.isStr : JsonVal → Bool
  | .str _ => true
  | _ => false

/-- The numeric view Python's `round` accepts: JSON numbers, and Python
booleans (which are `int`s: `True = 1`, `False = 0`).  `round` raises
`TypeError` on every other decoded value. -/
def JsonVal.asNum : JsonVal → Option ℚ
  | .num q => some q
  | .bool b => some (if b then 1 else 0)
  | _ => none

/-- Python's `d.get(k)` on a JSON object decoded to a dict (keys are distinct,
so the first match is the match). -/
def dictGet (fields : List (String × JsonVal)) (k : String) : Option JsonVal :=
  (fields.find? (fun p => p.1 == k)).map (·.2)

/-- One prediction returned by the pipeline: a dict such as
`{'label': 'POSITIVE', 'score': 0.9998}`. -/
abbrev PredDict := List (String × JsonVal)

/-- The sentiment pipeline, opaque: called on the validated text it either
raises (the exception's name is recorded) or returns its list of prediction
dicts. -/
abbrev Analyzer := String → Except String (List PredDict)

/-- Python's `round(q, 4)`: round to 4 decimal places.  Equal to
`(round (q * 10000) : ℚ) / 10000` by `round_eq`; spelled with the floor so
the arithmetic stays inside the `FloorRing` API. -/
def pyRound4 (q : ℚ) : ℚ := (⌊q * 10000 + 1 / 2⌋ : ℚ) / 10000

/-- The body of a response the handler itself builds with `jsonify`:
either `{"error": msg}` or `{"sentiment": label, "score": score}`. -/
inductive RespBody where
  | errorMsg (msg : String)
  | prediction (sentiment : JsonVal) (score : ℚ)

/-- An HTTP response formed inside the handler. -/
structure Response where
  status : Nat
  body : RespBody

/-- What one request to `/predict` produces: a response returned by the
handler body, or an exception that escaped the handler (named), which the
framework converts to its own default error page with the given status.
Either way exactly one response reaches the client and the process
survives. -/
inductive Outcome where
  | handler (resp : Response)
  | framework (status : Nat) (exc : String)

/-- Whether the outcome is a response formed by the handler itself. -/
def Outcome.handled : Outcome → Bool
  | .handler _ => true
  | .framework _ _ => false

/-- The HTTP status the client sees. -/
def Outcome.status : Outcome → Nat
  | .handler r => r.status
  | .framework s _ => s

/-- An inbound HTTP request, as the handler observes it through Flask:
`is_json` is `request.is_json` (the declared content type is a JSON type);
`parsed_json` is what `request.get_json()` would give — `none` when the
body fails to parse as JSON (in which case `get_json` raises
`BadRequest`). -/
structure HttpRequest where
  is_json : Bool
  parsed_json : Option JsonVal

/-- The `try:` block of `predict_sentiment` (app.py lines 54–67): call the
model, take `result[0]`, read `prediction['label']` and
`prediction['score']`, round the score; any exception (model failure,
`IndexError` on an empty result, `KeyError` on a missing key, `TypeError`
from `round` on a non-number) is caught and mapped to the fixed 500
response. -/
def tryPredict (model : Analyzer) (text_input : String) : Response :=
  match model text_input with
  | .error _ => ⟨500, .errorMsg "An internal error occurred during prediction"⟩
  | .ok result =>
    match result with
    | [] => ⟨500, .errorMsg "An internal error occurred during prediction"⟩
    | prediction :: _ =>
      match dictGet prediction "label", dictGet prediction "score" with
      | some label, some scoreVal =>
        match scoreVal.asNum with
        | some q => ⟨200, .prediction label (pyRound4 q)⟩
        | none => ⟨500, .errorMsg "An internal error occurred during prediction"⟩
      | _, _ => ⟨500, .errorMsg "An internal error occurred during prediction"⟩

/-- Steps 3–5 of the handler, after `data = request.get_json()` returned a
JSON object: `text_input = data.get('text')`, then the guard
`if not text_input or not isinstance(text_input, str)` (which rejects
exactly everything except a nonempty string, so the match branches on
`some (.str s)` and then on emptiness), then the length guard, then the
`try:` block. -/
def checkText (model : Analyzer) (fields : List (String × JsonVal)) : Outcome :=
  match dictGet fields "text" with
  | some (.str s) =>
    if s.isEmpty then
      .handler ⟨400, .errorMsg "Missing or invalid 'text' field in JSON payload"⟩
    else if s.length > 512 then
      .handler ⟨400, .errorMsg "Input text exceeds maximum length of 512 characters"⟩
    else
      .handler (tryPredict model s)
  | _ =>
    .handler ⟨400, .errorMsg "Missing or invalid 'text' field in JSON payload"⟩

/-- The step `text_input = data.get('text')` on the value `get_json()` produced:
on a JSON object it proceeds to the field checks; on anything else
(`null`, a number, a string, an array, …) Python's attribute lookup
`data.get` raises `AttributeError`, which nothing in the handler catches,
so Flask answers its default 500 page. -/
def handleData (model : Analyzer) (data : JsonVal) : Outcome :=
  match data with
  | .obj fields => checkText model fields
  | _ => .framework 500 "AttributeError"

/-- Embedding of the route handler `predict_sentiment` (app.py lines
25–67), given the process-wide `sentiment_analyzer` (which is `None`
exactly when startup failed) and the inbound request. -/
def predict_sentiment (sentiment_analyzer : Option Analyzer)
    (req : HttpRequest) : Outcome :=
  match sentiment_analyzer with
  | none =>
    .handler ⟨503, .errorMsg "Model is not available due to a startup error"⟩
  | some model =>
    if !req.is_json then
      .handler ⟨400, .errorMsg "Request must be JSON"⟩
    else
      match req.parsed_json with
      | none => .framework 400 "BadRequest"
      | some data => handleData model data

/-- Whether the outcome is a `{"error": msg}` body built by the handler,
and which message it carries. -/
def Outcome.errorBody : Outcome → Option String
  | .handler ⟨_, .errorMsg m⟩ => some m
  | _ => none

/-- The spec's response invariant for one response: a prediction body comes
with status 200, an error body with a non-200 status. -/
def Response.wellClassified : Response → Bool
  | ⟨status, .prediction _ _⟩ => status == 200
  | ⟨status, .errorMsg _⟩ => status != 200

/-- Whether a parsed body is a JSON object (the only shape on which
`data.get('text')` does not raise `AttributeError`). -/
def isObjOption : Option JsonVal → Bool
  | some (.obj _) => true
  | _ => false

/-- A stub pipeline for concrete test inputs: always one prediction,
`{'label': 'POSITIVE', 'score': 1}`. -/
def stubAnalyzer : Analyzer :=
  fun _ => .ok [[("label", .str "POSITIVE"), ("score", .num 1)]]

/-- A stub pipeline whose call always raises. -/
def failingAnalyzer : Analyzer := fun _ => .error "RuntimeError"

/-- A 513-character input (one over the limit). -/
def longText : String := String.mk (List.replicate 513 'a')

/-- A 512-character input (exactly at the limit). -/
def boundaryText : String := String.mk (List.replicate 512 'a')

/-- The process-wide state: the module-level `sentiment_analyzer` binding
set once by the startup `try/except`. -/
structure ServerState where
  sentiment_analyzer : Option Analyzer

/-- One full request/response cycle.  The handler body contains no
assignment to any module-level name, so every `return` path leaves the
process state exactly as it found it: the cycle yields the handler's
outcome and the unchanged state. -/
def handleRequest (st : ServerState) (req : HttpRequest) :
    Outcome × ServerState :=
  (predict_sentiment st.sentiment_analyzer req, st)

/-! ## General lemmas about the `try:` block and the rounding -/

/-- With the model present, a JSON request whose body parsed to an object
runs the field/length/inference steps. -/
theorem predict_obj (m : Analyzer) (fields : List (String × JsonVal)) :
    predict_sentiment (some m) ⟨true, some (.obj fields)⟩ = checkText m fields :=
  rfl

/-- If the `text` lookup yields anything but a nonempty string, the field
check fails with the missing-field 400. -/
theorem checkText_missing (m : Analyzer) (fields : List (String × JsonVal))
    (h : ∀ s, dictGet fields "text" = some (.str s) → s.isEmpty = true) :
    checkText m fields =
      .handler ⟨400, .errorMsg "Missing or invalid 'text' field in JSON payload"⟩ := by
  unfold checkText
  cases hd : dictGet fields "text" with
  | none => rfl
  | some v =>
    cases v with
    | str s => simp [h s hd]
    | null => rfl
    | bool b => rfl
    | num q => rfl
    | arr elems => rfl
    | obj fs => rfl

/-- A nonempty `text` longer than 512 characters fails the length check. -/
theorem checkText_overlength (m : Analyzer) (fields : List (String × JsonVal))
    (s : String) (htext : dictGet fields "text" = some (.str s))
    (hne : s.isEmpty = false) (hlen : s.length > 512) :
    checkText m fields =
      .handler ⟨400, .errorMsg "Input text exceeds maximum length of 512 characters"⟩ := by
  unfold checkText
  rw [htext]
  simp [hne, hlen]

/-- A nonempty `text` of at most 512 characters passes validation and the
outcome is whatever the `try:` block produces on it. -/
theorem checkText_valid (m : Analyzer) (fields : List (String × JsonVal))
    (s : String) (htext : dictGet fields "text" = some (.str s))
    (hne : s.isEmpty = false) (hlen : ¬ s.length > 512) :
    checkText m fields = .handler (tryPredict m s) := by
  unfold checkText
  rw [htext]
  simp [hne, hlen]

/-- Whatever the model does, the `try:` block produces either the 200
prediction response or the fixed 500 error response. -/
theorem tryPredict_wellClassified (model : Analyzer) (s : String) :
    (tryPredict model s).wellClassified = true := by
  unfold tryPredict
  split
  · rfl
  · split
    · rfl
    · split
      · split <;> rfl
      · rfl

/-- The status of the `try:` block's response is 200 or 500. -/
theorem tryPredict_status (model : Analyzer) (s : String) :
    (tryPredict model s).status = 200 ∨ (tryPredict model s).status = 500 := by
  unfold tryPredict
  split
  · right; rfl
  · split
    · right; rfl
    · split
      · split
        · left; rfl
        · right; rfl
      · right; rfl

/-- The `try:` block always answers a handler response: there is a
response `r` it returns, and `r` satisfies the 200-prediction /
non-200-error classification. -/
theorem checkText_classified (m : Analyzer) (fields : List (String × JsonVal)) :
    ∃ r, checkText m fields = .handler r ∧ r.wellClassified = true := by
  unfold checkText
  split
  · split
    · exact ⟨_, rfl, rfl⟩
    · split
      · exact ⟨_, rfl, rfl⟩
      · exact ⟨_, rfl, tryPredict_wellClassified m _⟩
  · exact ⟨_, rfl, rfl⟩

/-- When the model call succeeds and its first prediction dict has a
`label` and a numeric `score`, the `try:` block returns 200 with that label
and the rounded score — the tail of the model's output is never used. -/
theorem tryPredict_wellFormed (model : Analyzer) (s : String)
    (d : PredDict) (rest : List PredDict) (label : JsonVal) (raw : ℚ)
    (hmodel : model s = .ok (d :: rest))
    (hlabel : dictGet d "label" = some label)
    (hscore : dictGet d "score" = some (.num raw)) :
    tryPredict model s = ⟨200, .prediction label (pyRound4 raw)⟩ := by
  unfold tryPredict
  rw [hmodel]
  simp [hlabel, hscore, JsonVal.asNum]

/-- If the model call raises, or returns an empty list, or returns a first
dict lacking `label` or `score`, the `try:` block catches the exception and
returns the fixed 500 response. -/
theorem tryPredict_error_cases (model : Analyzer) (s : String)
    (h : (∃ e, model s = .error e) ∨ model s = .ok [] ∨
      (∃ d rest, model s = .ok (d :: rest) ∧
        (dictGet d "label" = none ∨ dictGet d "score" = none))) :
    tryPredict model s =
      ⟨500, .errorMsg "An internal error occurred during prediction"⟩ := by
  unfold tryPredict
  rcases h with ⟨e, he⟩ | he | ⟨d, rest, hd, hlab | hsc⟩
  · rw [he]
  · rw [he]
  · rw [hd]
    simp [hlab]
  · rw [hd]
    cases hl : dictGet d "label" with
    | none => simp [hl]
    | some l => simp [hl, hsc]

/-- Rounding to 4 decimal places maps `[0, 1]` into `[0, 1]`. -/
theorem pyRound4_mem_unitInterval (q : ℚ) (h0 : 0 ≤ q) (h1 : q ≤ 1) :
    0 ≤ pyRound4 q ∧ pyRound4 q ≤ 1 := by
  unfold pyRound4
  have hf0 : (0 : ℤ) ≤ ⌊q * 10000 + 1 / 2⌋ := by
    rw [Int.floor_nonneg]
    nlinarith
  have hf1 : ⌊q * 10000 + 1 / 2⌋ < 10001 := by
    rw [Int.floor_lt]
    push_cast
    nlinarith
  constructor
  · apply div_nonneg _ (by norm_num)
    exact_mod_cast hf0
  · rw [div_le_one (by norm_num)]
    have : ⌊q * 10000 + 1 / 2⌋ ≤ 10000 := by omega
    exact_mod_cast this

/-! ## Claim theorems -/

/-- C5: whenever the model handle is absent (startup failure), every
request to `/predict` — regardless of its content type, body, or `text`
field — receives HTTP 503 with body
`{"error": "Model is not available due to a startup error"}`; since the
outcome is one constant over all requests, none of the later validation
checks or the inference call affect it. -/
theorem model_absent_always_503 (req : HttpRequest) :
    predict_sentiment none req =
      .handler ⟨503, .errorMsg "Model is not available due to a startup error"⟩ :=
  rfl

/-- C9: handling a request leaves the process-wide state (the
`sentiment_analyzer` binding) unchanged, and a second identical request
handled against the state the first one left behind produces the identical
outcome — in particular identical `sentiment` and `score` on the success
path. -/
theorem handleRequest_idempotent_no_mutation (st : ServerState) (req : HttpRequest) :
    (handleRequest st req).2 = st ∧
    (handleRequest (handleRequest st req).2 req).1 = (handleRequest st req).1 :=
  ⟨rfl, rfl⟩

/-- C10: validation inspects only the `text` field of the JSON object
body: two JSON-object requests whose `text` lookups agree produce the same
outcome whatever their other fields are (same status, error message, and
prediction). -/
theorem extra_fields_ignored (m : Analyzer)
    (fields fields' : List (String × JsonVal))
    (h : dictGet fields "text" = dictGet fields' "text") :
    predict_sentiment (some m) ⟨true, some (.obj fields)⟩ =
      predict_sentiment (some m) ⟨true, some (.obj fields')⟩ := by
  rw [predict_obj m fields, predict_obj m fields']
  unfold checkText
  rw [h]

/-- Witness for C10: a request with a valid `text` plus an arbitrary extra
key behaves identically to one with `text` alone. -/
theorem extra_fields_ignored_witness :
    predict_sentiment (some stubAnalyzer)
        ⟨true, some (.obj [("text", .str "hi")])⟩ =
      predict_sentiment (some stubAnalyzer)
        ⟨true, some (.obj [("text", .str "hi"), ("extra", .num 7)])⟩ :=
  extra_fields_ignored stubAnalyzer _ _ rfl

/-- C7: for every JSON-object request where the `text` field is missing,
null, non-string (null is not a string), or the empty string, the endpoint
returns HTTP 400 with the exact message
`"Missing or invalid 'text' field in JSON payload"`. -/
theorem invalid_text_field_400 (m : Analyzer)
    (fields : List (String × JsonVal))
    (h : dictGet fields "text" = none ∨
      (∃ v, dictGet fields "text" = some v ∧ v.isStr = false) ∨
      dictGet fields "text" = some (.str "")) :
    predict_sentiment (some m) ⟨true, some (.obj fields)⟩ =
      .handler ⟨400, .errorMsg "Missing or invalid 'text' field in JSON payload"⟩ := by
  rw [predict_obj]
  apply checkText_missing
  intro s hs
  rcases h with h | ⟨v, hv, hstr⟩ | h
  · rw [h] at hs
    cases hs
  · rw [hv] at hs
    injection hs with hv'
    rw [hv'] at hstr
    simp [JsonVal.isStr] at hstr
  · rw [h] at hs
    injection hs with hs'
    injection hs' with hs''
    rw [← hs'']
    rfl

/-- Witness for C7: the empty JSON object `{}` (no `text` key) yields the
missing-field 400. -/
theorem invalid_text_field_400_witness :
    predict_sentiment (some stubAnalyzer) ⟨true, some (.obj [])⟩ =
      .handler ⟨400, .errorMsg "Missing or invalid 'text' field in JSON payload"⟩ :=
  invalid_text_field_400 stubAnalyzer [] (Or.inl rfl)

/-- C3: the validation checks run in the order availability → JSON-ness →
field validity → length → inference, each failing check short-circuiting
the later ones.  Each conjunct quantifies over everything the later checks
would look at (the parsed body, the text lookup, the model), so a failure
at one stage fixes the response independently of all later stages; in
particular a non-JSON request that is also missing `text` and overlength
receives the JSON-format error, not the field or length error. -/
theorem validation_order :
    (∀ req : HttpRequest, predict_sentiment none req =
      .handler ⟨503, .errorMsg "Model is not available due to a startup error"⟩) ∧
    (∀ (m : Analyzer) (p : Option JsonVal),
      predict_sentiment (some m) ⟨false, p⟩ =
        .handler ⟨400, .errorMsg "Request must be JSON"⟩) ∧
    (∀ (m : Analyzer) (fields : List (String × JsonVal)),
      (∀ s, dictGet fields "text" = some (.str s) → s.isEmpty = true) →
      predict_sentiment (some m) ⟨true, some (.obj fields)⟩ =
        .handler ⟨400, .errorMsg "Missing or invalid 'text' field in JSON payload"⟩) ∧
    (∀ (m : Analyzer) (fields : List (String × JsonVal)) (s : String),
      dictGet fields "text" = some (.str s) → s.isEmpty = false → s.length > 512 →
      predict_sentiment (some m) ⟨true, some (.obj fields)⟩ =
        .handler ⟨400, .errorMsg "Input text exceeds maximum length of 512 characters"⟩) := by
  refine ⟨fun _ => rfl, fun _ _ => rfl, ?_, ?_⟩
  · intro m fields h
    rw [predict_obj]
    exact checkText_missing m fields h
  · intro m fields s hd hne hlen
    rw [predict_obj]
    exact checkText_overlength m fields s hd hne hlen

set_option maxRecDepth 8000 in
/-- Witness for C3: concrete requests exercising each short-circuit — a
non-JSON overlength missing-field request with the model absent gets the
503; with the model present it gets the JSON-format error (not the length
or field error); `{"nottext": …}` gets the field error; an overlength
`text` gets the length error. -/
theorem validation_order_witness :
    predict_sentiment none ⟨false, some (.obj [("nottext", .str longText)])⟩ =
      .handler ⟨503, .errorMsg "Model is not available due to a startup error"⟩ ∧
    predict_sentiment (some stubAnalyzer)
        ⟨false, some (.obj [("nottext", .str longText)])⟩ =
      .handler ⟨400, .errorMsg "Request must be JSON"⟩ ∧
    predict_sentiment (some stubAnalyzer)
        ⟨true, some (.obj [("nottext", .str longText)])⟩ =
      .handler ⟨400, .errorMsg "Missing or invalid 'text' field in JSON payload"⟩ ∧
    predict_sentiment (some stubAnalyzer)
        ⟨true, some (.obj [("text", .str longText)])⟩ =
      .handler ⟨400, .errorMsg "Input text exceeds maximum length of 512 characters"⟩ :=
  ⟨validation_order.1 _,
   validation_order.2.1 stubAnalyzer _,
   validation_order.2.2.1 stubAnalyzer _ (fun s h => nomatch h),
   validation_order.2.2.2 stubAnalyzer _ longText rfl (by decide)
     (by decide)⟩

/-- C1 (counterexample): with the model loaded, a request with a JSON
content type whose body is valid JSON but not an object (here the array
`[]`), or whose body is not parseable JSON at all, produces an outcome the
handler did not form — `data.get('text')` raises `AttributeError`
(resp. `get_json()` raises `BadRequest`), the exception propagates out of
the handler, and the framework answers its default page. -/
theorem handler_escape_counterexample :
    (predict_sentiment (some stubAnalyzer) ⟨true, some (.arr [])⟩).handled = false ∧
    (predict_sentiment (some stubAnalyzer) ⟨true, none⟩).handled = false :=
  ⟨rfl, rfl⟩

/-- C1 (amended): every outcome is exactly one response; whenever the
handler itself forms it, it is either a prediction body with HTTP 200 or an
error body with a non-200 status.  The only outcomes the handler does not
form arise when the model is present, the content type is JSON, and the
parsed body is missing (unparseable) or not a JSON object — there an
exception propagates out of the handler and the framework builds the
response, still without crashing the process. -/
theorem outcome_classification (a : Option Analyzer) (req : HttpRequest) :
    match predict_sentiment a req with
    | .handler r => r.wellClassified = true
    | .framework _ _ =>
        a.isSome = true ∧ req.is_json = true ∧ isObjOption req.parsed_json = false := by
  obtain ⟨j, p⟩ := req
  cases a with
  | none => exact rfl
  | some m =>
    cases j with
    | false => exact rfl
    | true =>
      cases p with
      | none => exact ⟨rfl, rfl, rfl⟩
      | some v =>
        cases v with
        | obj fields =>
          rw [predict_obj]
          obtain ⟨r, hr, hc⟩ := checkText_classified m fields
          rw [hr]
          exact hc
        | null => exact ⟨rfl, rfl, rfl⟩
        | bool b => exact ⟨rfl, rfl, rfl⟩
        | num q => exact ⟨rfl, rfl, rfl⟩
        | str s => exact ⟨rfl, rfl, rfl⟩
        | arr elems => exact ⟨rfl, rfl, rfl⟩

/-- C2: for a JSON-object request whose `text` is a nonempty string of at
most 512 characters, with the model loaded and returning a first prediction
dict carrying a label and a numeric score in `[0, 1]`, the endpoint answers
HTTP 200 with `sentiment` equal to that first element's label and `score`
equal to that element's score rounded to 4 decimal places, still in
`[0, 1]`; the tail `rest` of the model output is arbitrary, so only element
zero is used. -/
theorem valid_request_first_prediction (model : Analyzer)
    (fields : List (String × JsonVal)) (s : String) (label : JsonVal)
    (raw : ℚ) (d : PredDict) (rest : List PredDict)
    (htext : dictGet fields "text" = some (.str s))
    (hne : s.isEmpty = false) (hlen : s.length ≤ 512)
    (hmodel : model s = .ok (d :: rest))
    (hlabel : dictGet d "label" = some label)
    (hscore : dictGet d "score" = some (.num raw))
    (h0 : 0 ≤ raw) (h1 : raw ≤ 1) :
    predict_sentiment (some model) ⟨true, some (.obj fields)⟩ =
      .handler ⟨200, .prediction label (pyRound4 raw)⟩ ∧
    0 ≤ pyRound4 raw ∧ pyRound4 raw ≤ 1 := by
  refine ⟨?_, pyRound4_mem_unitInterval raw h0 h1⟩
  rw [predict_obj, checkText_valid model fields s htext hne (by omega),
    tryPredict_wellFormed model s d rest label raw hmodel hlabel hscore]

/-- Witness for C2: `{"text": "hi"}` against a stub model whose first (and
only) prediction is `{'label': 'POSITIVE', 'score': 1}`. -/
theorem valid_request_first_prediction_witness :
    predict_sentiment (some stubAnalyzer) ⟨true, some (.obj [("text", .str "hi")])⟩ =
      .handler ⟨200, .prediction (.str "POSITIVE") (pyRound4 1)⟩ ∧
    0 ≤ pyRound4 1 ∧ pyRound4 1 ≤ 1 :=
  valid_request_first_prediction stubAnalyzer [("text", .str "hi")] "hi"
    (.str "POSITIVE") 1 [("label", .str "POSITIVE"), ("score", .num 1)] []
    rfl rfl (by decide) rfl rfl rfl zero_le_one le_rfl

/-- C4 (counterexample): with the model loaded, a request with a JSON
content type whose body fails to parse gets status 400 but not from the
handler: its outcome carries no handler-built `{"error": …}` body, so the
body is not `{"error": "Request must be JSON"}`.  Moreover with the model
absent, a request lacking the JSON content type gets 503, not 400. -/
theorem malformed_json_counterexample :
    (predict_sentiment (some stubAnalyzer) ⟨true, none⟩).handled = false ∧
    (predict_sentiment (some stubAnalyzer) ⟨true, none⟩).status = 400 ∧
    (predict_sentiment (some stubAnalyzer) ⟨true, none⟩).errorBody ≠
      some "Request must be JSON" ∧
    (predict_sentiment none ⟨false, none⟩).status = 503 :=
  ⟨rfl, rfl, by decide, rfl⟩

/-- C4 (amended): with the model loaded, a request lacking the JSON content
type receives the handler's HTTP 400 `{"error": "Request must be JSON"}`
whatever its body parsed to; a request with a JSON content type whose body
is not parseable JSON receives the framework's default `BadRequest`
response instead — status 400 as well, but not the handler's body.  In
both cases the status is 400, never 500. -/
theorem nonjson_requests_400 (m : Analyzer) (p : Option JsonVal) :
    predict_sentiment (some m) ⟨false, p⟩ =
      .handler ⟨400, .errorMsg "Request must be JSON"⟩ ∧
    predict_sentiment (some m) ⟨true, none⟩ = .framework 400 "BadRequest" ∧
    (predict_sentiment (some m) ⟨false, p⟩).status = 400 ∧
    (predict_sentiment (some m) ⟨true, none⟩).status = 400 :=
  ⟨rfl, rfl, rfl, rfl⟩

/-- C6: a JSON-object request whose `text` is a nonempty string strictly
longer than 512 characters gets HTTP 400 with exactly
`"Input text exceeds maximum length of 512 characters"`, while at exactly
512 characters the length check passes and the outcome is the inference
result (whose status is never 400). -/
theorem length_boundary (m : Analyzer) (fields : List (String × JsonVal))
    (s : String) (htext : dictGet fields "text" = some (.str s))
    (hne : s.isEmpty = false) :
    (s.length > 512 →
      predict_sentiment (some m) ⟨true, some (.obj fields)⟩ =
        .handler ⟨400, .errorMsg "Input text exceeds maximum length of 512 characters"⟩) ∧
    (s.length = 512 →
      predict_sentiment (some m) ⟨true, some (.obj fields)⟩ =
        .handler (tryPredict m s) ∧
      (tryPredict m s).status ≠ 400) := by
  constructor
  · intro hlen
    rw [predict_obj]
    exact checkText_overlength m fields s htext hne hlen
  · intro hlen
    refine ⟨?_, ?_⟩
    · rw [predict_obj]
      exact checkText_valid m fields s htext hne (by omega)
    · rcases tryPredict_status m s with h | h <;> omega

set_option maxRecDepth 8000 in
/-- Witness for C6: a 513-character `text` yields the length error; a
512-character `text` proceeds to inference. -/
theorem length_boundary_witness :
    predict_sentiment (some stubAnalyzer) ⟨true, some (.obj [("text", .str longText)])⟩ =
      .handler ⟨400, .errorMsg "Input text exceeds maximum length of 512 characters"⟩ ∧
    predict_sentiment (some stubAnalyzer)
        ⟨true, some (.obj [("text", .str boundaryText)])⟩ =
      .handler (tryPredict stubAnalyzer boundaryText) ∧
    (tryPredict stubAnalyzer boundaryText).status ≠ 400 :=
  ⟨(length_boundary stubAnalyzer [("text", .str longText)] longText rfl
      (by decide)).1 (by decide),
   (length_boundary stubAnalyzer [("text", .str boundaryText)] boundaryText rfl
      (by decide)).2 (by decide)⟩

/-- C8: for a valid request, if the inference step fails — the model call
raises, or its result is the empty list (`result[0]` raises `IndexError`),
or the first dict lacks `label` or `score` (`KeyError`) — the handler
catches the exception and answers HTTP 500 with exactly
`{"error": "An internal error occurred during prediction"}`: the body is
that constant, so no text derived from the internal exception reaches the
client. -/
theorem inference_failure_500 (model : Analyzer)
    (fields : List (String × JsonVal)) (s : String)
    (htext : dictGet fields "text" = some (.str s))
    (hne : s.isEmpty = false) (hlen : s.length ≤ 512)
    (h : (∃ e, model s = .error e) ∨ model s = .ok [] ∨
      (∃ d rest, model s = .ok (d :: rest) ∧
        (dictGet d "label" = none ∨ dictGet d "score" = none))) :
    predict_sentiment (some model) ⟨true, some (.obj fields)⟩ =
      .handler ⟨500, .errorMsg "An internal error occurred during prediction"⟩ := by
  rw [predict_obj, checkText_valid model fields s htext hne (by omega),
    tryPredict_error_cases model s h]

/-- Witness for C8: a model whose call always raises yields the fixed 500
body on a valid request. -/
theorem inference_failure_500_witness :
    predict_sentiment (some failingAnalyzer)
        ⟨true, some (.obj [("text", .str "hi")])⟩ =
      .handler ⟨500, .errorMsg "An internal error occurred during prediction"⟩ :=
  inference_failure_500 failingAnalyzer [("text", .str "hi")] "hi"
    rfl rfl (by decide) (Or.inl ⟨"RuntimeError", rfl⟩)

end App
